import Mathlib

/-!
Shallow embedding of `src/server.js` (rfi-tracker server bootstrap script).

The script has two phases: a bootstrap phase (`generatePrismaClient`:
environment validation, external `npx prisma generate` invocation, and a
connect/disconnect verification round-trip) and a serving phase
(`startServer`: framework preparation, route registration, listener bind,
signal handlers).  External effects (the generation command, the database
connection, framework preparation) are modelled by an oracle `World`; the
embedded functions return the trace of observable events the script emits
together with the outcome, mirroring the source line by line.
-/

/-- A process environment: `process.env`, a partial map from variable names
to string values. -/
def Env : Type := String → Option String

/-- JavaScript truthiness of an environment-variable lookup:
`!process.env[x]` is `true` exactly when the variable is undefined or the
empty string, so `!!process.env[x]` is this predicate. -/
def truthy : Option String → Bool
  | none => false
  | some s => s != ""

/-- A JavaScript `Error` value with the fields the script reads
(`message`, `stack`, and for `exec` failures `cmd`, `stdout`, `stderr`). -/
structure JsError where
  message : String
  stack : String
  cmd : Option String
  stdout : Option String
  stderr : Option String
deriving DecidableEq

/-- The captured output of a completed `execPromise` call. -/
structure ExecResult where
  stdout : String
  stderr : String
deriving DecidableEq

/-- Outcome of the external generation command: successful completion with
captured streams, or a thrown execution error (nonzero exit, spawn failure). -/
inductive ExecOutcome
  | ok (r : ExecResult)
  | err (e : JsError)
deriving DecidableEq

/-- An HTTP request as the router sees it: method and path. -/
structure Request where
  method : String
  path : String
deriving DecidableEq

/-- The `environment` sub-object of the health payload (line 91-94). -/
structure HealthEnvironment where
  nodeEnv : Option String
  hasDbConnection : Bool
deriving DecidableEq

/-- The JSON document returned by the health-check handler (lines 87-95).
`uptime` (seconds, `process.uptime()`) and `timestamp`
(`new Date().toISOString()`) are values read from the process at handling
time; the embedding receives them as parameters. -/
structure HealthBody where
  status : String
  uptime : ℚ
  timestamp : String
  environment : HealthEnvironment
deriving DecidableEq

/-- Result of routing one request: the health route answers with a status
code and a body; every other request is delegated to the framework handler
with the request passed through. -/
inductive RouteResult
  | health (statusCode : Nat) (body : HealthBody)
  | delegated (req : Request)
deriving DecidableEq

/-- Observable events emitted by the script, in program order.
`genCatchLogged e` is the `console.error` pair in the catch block of
`generatePrismaClient` (lines 61-68), which logs the full diagnostic payload
of `e` (message, stack, cmd, stdout, stderr).  `topCatchLogged msg stack` is
the `console.error` pair in the catch block of `startServer`
(lines 119-123), which logs only the message and stack. -/
inductive Event
  | logMsg (s : String)
  | warn (s : String)
  | execCalled
  | clientConstructed
  | connectCalled
  | disconnectCalled
  | genCatchLogged (e : JsError)
  | topCatchLogged (message : String) (stack : String)
  | prepareCalled
  | listenCalled (portValue : String)
  | signalHandlersRegistered
  | handled (r : RouteResult)
  | exited (code : Nat)
deriving DecidableEq

/-- Oracle for the external world: the process environment, the behaviour of
the generation command as a function of the environment it is invoked with,
and the outcomes of the database connect and framework prepare calls
(`none` = success, `some e` = the call throws `e`). -/
structure World where
  env : Env
  exec : Env → ExecOutcome
  connect : Option JsError
  prepare : Option JsError

/-- Line 18: `const requiredEnvVars = ['DATABASE_URL', 'DIRECT_URL']`. -/
def requiredEnvVars : List String := ["DATABASE_URL", "DIRECT_URL"]

/-- Line 19: `requiredEnvVars.filter(varName => !process.env[varName])`. -/
def missingVars (env : Env) : List String :=
  requiredEnvVars.filter fun n => ! truthy (env n)

/-- The error thrown at line 22 when validation fails: its message carries
the comma-joined list of missing variable names. -/
def configError (missing : List String) : JsError :=
  { message := "Missing required environment variables: " ++ String.intercalate ", " missing
    stack := "Error: Missing required environment variables: " ++ String.intercalate ", " missing
    cmd := none
    stdout := none
    stderr := none }

/-- Lines 34-38: the environment handed to the generation command is the
spread of `process.env` with `PRISMA_CLIENT_ENGINE_TYPE: 'binary'` and
`NODE_ENV: process.env.NODE_ENV || 'production'`. -/
def prismaEnv (env : Env) : Env := fun k =>
  if k = "PRISMA_CLIENT_ENGINE_TYPE" then some "binary"
  else if k = "NODE_ENV" then
    some (match env "NODE_ENV" with
          | some s => if s = "" then "production" else s
          | none => "production")
  else env k

/-- Lines 13-71: `generatePrismaClient`.  Returns the emitted event trace
and `none` on success or `some e` when the function throws `e` (after its
own catch block logged the full payload and re-threw, line 69). -/
def generatePrismaClient (w : World) : List Event × Option JsError :=
  let t0 : List Event := [Event.logMsg "Starting Prisma Client generation process..."]
  let missing := missingVars w.env
  if missing = [] then
    let t1 := t0 ++ [Event.logMsg "Environment validation",
                     Event.logMsg "Executing prisma generate...",
                     Event.execCalled]
    match w.exec (prismaEnv w.env) with
    | ExecOutcome.err e => (t1 ++ [Event.genCatchLogged e], some e)
    | ExecOutcome.ok r =>
      let t2 := t1 ++ (if r.stderr != "" then [Event.warn r.stderr] else [])
                   ++ (if r.stdout != "" then [Event.logMsg r.stdout] else [])
                   ++ [Event.logMsg "Prisma Client generated successfully",
                       Event.logMsg "Verifying Prisma Client...",
                       Event.clientConstructed,
                       Event.connectCalled]
      match w.connect with
      | some e => (t2 ++ [Event.genCatchLogged e], some e)
      | none =>
        (t2 ++ [Event.logMsg "Database connection test successful",
                Event.disconnectCalled,
                Event.logMsg "Prisma Client verification completed successfully"], none)
  else
    let e := configError missing
    (t0 ++ [Event.genCatchLogged e], some e)

/-- Possible final states of the bootstrap: the process exited with a code,
or the server is up and serving. -/
inductive ServerOutcome
  | exited (code : Nat)
  | serving
deriving DecidableEq

/-- Line 11: `const PORT = process.env.PORT || 8080`. -/
def port (env : Env) : String :=
  match env "PORT" with
  | some s => if s = "" then "8080" else s
  | none => "8080"

/-- Lines 73-126: `startServer`.  Awaits `generatePrismaClient`, then
`app.prepare()`, then binds the listener and registers the SIGTERM/SIGINT
handlers; any thrown error is caught once here, logged with message and
stack only, and the process exits with status 1. -/
def startServer (w : World) : List Event × ServerOutcome :=
  let g := generatePrismaClient w
  match g.2 with
  | some e =>
    (g.1 ++ [Event.topCatchLogged e.message e.stack, Event.exited 1], ServerOutcome.exited 1)
  | none =>
    match w.prepare with
    | some e =>
      (g.1 ++ [Event.prepareCalled, Event.topCatchLogged e.message e.stack, Event.exited 1],
       ServerOutcome.exited 1)
    | none =>
      (g.1 ++ [Event.prepareCalled, Event.listenCalled (port w.env),
               Event.signalHandlersRegistered],
       ServerOutcome.serving)

/-- Lines 91-94: the health payload built by the health handler. -/
def healthBody (env : Env) (uptime : ℚ) (timestamp : String) : HealthBody :=
  { status := "healthy"
    uptime := uptime
    timestamp := timestamp
    environment := { nodeEnv := env "NODE_ENV"
                     hasDbConnection := truthy (env "DATABASE_URL") } }

/-- Lines 86-101: the routing table.  `server.get('/api/health', ...)` is
registered before `server.all('*', ...)`, so a GET on the exact health path
is answered by the health handler (express `res.json` responds with status
200); everything else falls through to the wildcard route, which hands the
request unmodified to the framework handler. -/
def route (env : Env) (uptime : ℚ) (timestamp : String) (req : Request) : RouteResult :=
  if req.method = "GET" ∧ req.path = "/api/health" then
    RouteResult.health 200 (healthBody env uptime timestamp)
  else
    RouteResult.delegated req

/-- Inbound stimuli while serving: an HTTP request or a termination signal. -/
inductive Inbound
  | request (req : Request)
  | sigterm
  | sigint
deriving DecidableEq

/-- Process liveness during the serving phase. -/
inductive ProcState
  | running
  | terminated (code : Nat)
deriving DecidableEq

/-- Lines 110-113: the `shutdown` handler logs a notice and calls
`process.exit(0)` immediately; these are the only two things it does. -/
def shutdownTrace : List Event :=
  [Event.logMsg "Shutting down gracefully...", Event.exited 0]

/-- Serving-phase step function: a running process answers requests through
the routing table; SIGTERM and SIGINT both run the `shutdown` handler
(lines 115-116), which terminates the process with status 0.  A terminated
process does nothing. -/
def serveStep (env : Env) (uptime : ℚ) (timestamp : String) :
    ProcState → Inbound → ProcState × List Event
  | ProcState.running, Inbound.request r =>
    (ProcState.running, [Event.handled (route env uptime timestamp r)])
  | ProcState.running, Inbound.sigterm => (ProcState.terminated 0, shutdownTrace)
  | ProcState.running, Inbound.sigint => (ProcState.terminated 0, shutdownTrace)
  | ProcState.terminated c, _ => (ProcState.terminated c, [])

/-- Number of catch-block executions recorded in a trace: the generator's
catch (lines 60-69) and the orchestrator's catch (lines 118-125). -/
def catchCount (t : List Event) : Nat :=
  t.countP fun e => match e with
    | Event.genCatchLogged _ => true
    | Event.topCatchLogged _ _ => true
    | _ => false

/-- A concrete environment with both required variables set non-empty. -/
def envOK : Env := fun k =>
  if k = "DATABASE_URL" then some "postgresql://db.example/app"
  else if k = "DIRECT_URL" then some "postgresql://direct.example/app"
  else none

/-- A concrete world in which every external step succeeds and the
generation command emits a non-empty stderr stream. -/
def wOK : World :=
  { env := envOK
    exec := fun _ => ExecOutcome.ok { stdout := "Generated Prisma Client", stderr := "deprecation notice" }
    connect := none
    prepare := none }

/-- A concrete error thrown by a failing generation command. -/
def execErr : JsError :=
  { message := "Command failed: npx prisma generate"
    stack := "Error: Command failed: npx prisma generate"
    cmd := some "npx prisma generate"
    stdout := some ""
    stderr := some "schema not found" }

/-- A concrete world in which the generation command fails. -/
def wExecFail : World :=
  { env := envOK
    exec := fun _ => ExecOutcome.err execErr
    connect := none
    prepare := none }

/-- A concrete error thrown by a failing `$connect` call. -/
def connectErr : JsError :=
  { message := "Can't reach database server"
    stack := "PrismaClientInitializationError: Can't reach database server"
    cmd := none
    stdout := none
    stderr := none }

/-- A concrete world in which generation succeeds but the connect call
fails. -/
def wConnectFail : World :=
  { env := envOK
    exec := fun _ => ExecOutcome.ok { stdout := "Generated Prisma Client", stderr := "" }
    connect := some connectErr
    prepare := none }

/-- A concrete environment missing both required variables. -/
def envMissing : Env := fun k =>
  if k = "NODE_ENV" then some "development" else none

/-- A concrete world whose configuration fails validation. -/
def wMissing : World :=
  { env := envMissing
    exec := fun _ => ExecOutcome.ok { stdout := "", stderr := "" }
    connect := none
    prepare := none }

/-! ## Helper lemmas -/

lemma truthy_db_of_missing_nil (env : Env) (h : missingVars env = []) :
    truthy (env "DATABASE_URL") = true := by
  cases hdb : truthy (env "DATABASE_URL") <;>
    simp_all [missingVars, requiredEnvVars, List.filter]

lemma gen_trace_no_prepare (w : World) :
    Event.prepareCalled ∉ (generatePrismaClient w).1 := by
  by_cases hm : missingVars w.env = []
  · cases hx : w.exec (prismaEnv w.env) with
    | ok r =>
      cases hc : w.connect with
      | some e => simp [generatePrismaClient, hm, hx, hc]
      | none => simp [generatePrismaClient, hm, hx, hc]
    | err e => simp [generatePrismaClient, hm, hx]
  · simp [generatePrismaClient, hm]

lemma gen_trace_no_listen (w : World) (p : String) :
    Event.listenCalled p ∉ (generatePrismaClient w).1 := by
  by_cases hm : missingVars w.env = []
  · cases hx : w.exec (prismaEnv w.env) with
    | ok r =>
      cases hc : w.connect with
      | some e => simp [generatePrismaClient, hm, hx, hc]
      | none => simp [generatePrismaClient, hm, hx, hc]
    | err e => simp [generatePrismaClient, hm, hx]
  · simp [generatePrismaClient, hm]

lemma gen_none_elim (w : World) (h : (generatePrismaClient w).2 = none) :
    missingVars w.env = [] ∧ (∃ r, w.exec (prismaEnv w.env) = ExecOutcome.ok r)
      ∧ w.connect = none := by
  by_cases hm : missingVars w.env = []
  · cases hx : w.exec (prismaEnv w.env) with
    | ok r =>
      cases hc : w.connect with
      | some e => simp [generatePrismaClient, hm, hx, hc] at h
      | none => exact ⟨hm, ⟨r, rfl⟩, rfl⟩
    | err e => simp [generatePrismaClient, hm, hx] at h
  · simp [generatePrismaClient, hm] at h

lemma serving_elim (w : World) (h : (startServer w).2 = ServerOutcome.serving) :
    (generatePrismaClient w).2 = none ∧ w.prepare = none := by
  simp only [startServer] at h
  split at h
  · simp at h
  · rename_i hg
    split at h
    · simp at h
    · rename_i hp
      exact ⟨hg, hp⟩

lemma start_trace_fail (w : World) (e : JsError)
    (hg : (generatePrismaClient w).2 = some e) :
    startServer w = ((generatePrismaClient w).1 ++
      [Event.topCatchLogged e.message e.stack, Event.exited 1], ServerOutcome.exited 1) := by
  simp only [startServer, hg]

lemma start_trace_success (w : World) (hg : (generatePrismaClient w).2 = none)
    (hp : w.prepare = none) :
    startServer w = ((generatePrismaClient w).1 ++
      [Event.prepareCalled, Event.listenCalled (port w.env),
       Event.signalHandlersRegistered], ServerOutcome.serving) := by
  simp only [startServer, hg, hp]

lemma catchCount_append (a b : List Event) :
    catchCount (a ++ b) = catchCount a + catchCount b := by
  simp [catchCount, List.countP_append]

lemma catchCount_gen_some (w : World) (e : JsError)
    (h : (generatePrismaClient w).2 = some e) :
    catchCount (generatePrismaClient w).1 = 1 := by
  by_cases hm : missingVars w.env = []
  · cases hx : w.exec (prismaEnv w.env) with
    | ok r =>
      cases hc : w.connect with
      | some e2 =>
        simp [generatePrismaClient, hm, hx, hc, catchCount, List.countP_append,
              List.countP_cons]
        split_ifs <;> simp [List.countP_cons]
      | none => simp [generatePrismaClient, hm, hx, hc] at h
    | err e2 =>
      simp [generatePrismaClient, hm, hx, catchCount, List.countP_cons]
  · simp [generatePrismaClient, hm, catchCount, List.countP_cons]

lemma catchCount_gen_none (w : World)
    (h : (generatePrismaClient w).2 = none) :
    catchCount (generatePrismaClient w).1 = 0 := by
  obtain ⟨hm, ⟨r, hx⟩, hc⟩ := gen_none_elim w h
  simp [generatePrismaClient, hm, hx, hc, catchCount, List.countP_append,
        List.countP_cons]

lemma gen_some_genCatch (w : World) (e : JsError)
    (h : (generatePrismaClient w).2 = some e) :
    Event.genCatchLogged e ∈ (generatePrismaClient w).1 := by
  by_cases hm : missingVars w.env = []
  · cases hx : w.exec (prismaEnv w.env) with
    | ok r =>
      cases hc : w.connect with
      | some e2 => simp_all [generatePrismaClient, hm, hx, hc]
      | none => simp [generatePrismaClient, hm, hx, hc] at h
    | err e2 => simp_all [generatePrismaClient, hm, hx]
  · simp_all [generatePrismaClient, hm]

lemma gen_genCatch_some (w : World) (e : JsError)
    (h : Event.genCatchLogged e ∈ (generatePrismaClient w).1) :
    (generatePrismaClient w).2 = some e := by
  by_cases hm : missingVars w.env = []
  · cases hx : w.exec (prismaEnv w.env) with
    | ok r =>
      cases hc : w.connect with
      | some e2 => simp_all [generatePrismaClient, hm, hx, hc]
      | none =>
        simp [generatePrismaClient, hm, hx, hc] at h
    | err e2 => simp_all [generatePrismaClient, hm, hx]
  · simp_all [generatePrismaClient, hm]

/-! ## Claim theorems -/

/-- C1: in every bootstrap run where the generation command exits nonzero
(or throws), or where the post-generation connect call fails, the process
exits with status 1, framework preparation and the listener bind are never
invoked, and serving never starts. -/
theorem C1_failed_bootstrap_never_serves (w : World)
    (h : (∃ e, w.exec (prismaEnv w.env) = ExecOutcome.err e) ∨ w.connect ≠ none) :
    (startServer w).2 = ServerOutcome.exited 1
    ∧ Event.prepareCalled ∉ (startServer w).1
    ∧ (∀ p, Event.listenCalled p ∉ (startServer w).1)
    ∧ (startServer w).2 ≠ ServerOutcome.serving := by
  have hsome : ∃ e, (generatePrismaClient w).2 = some e := by
    cases hg : (generatePrismaClient w).2 with
    | some e => exact ⟨e, rfl⟩
    | none =>
      obtain ⟨hm, ⟨r, hr⟩, hc⟩ := gen_none_elim w hg
      rcases h with ⟨e, he⟩ | hcc
      · rw [hr] at he; cases he
      · exact absurd hc hcc
  obtain ⟨e, hg⟩ := hsome
  rw [start_trace_fail w e hg]
  refine ⟨rfl, ?_, ?_, by simp⟩
  · simp [List.mem_append, gen_trace_no_prepare w]
  · intro p
    simp [List.mem_append, gen_trace_no_listen w p]

/-- C1 witness: a concrete run whose generation command throws. -/
theorem C1_witness :
    (startServer wExecFail).2 = ServerOutcome.exited 1
    ∧ Event.prepareCalled ∉ (startServer wExecFail).1
    ∧ Event.listenCalled "8080" ∉ (startServer wExecFail).1 :=
  ⟨(C1_failed_bootstrap_never_serves wExecFail (Or.inl ⟨execErr, rfl⟩)).1,
   (C1_failed_bootstrap_never_serves wExecFail (Or.inl ⟨execErr, rfl⟩)).2.1,
   (C1_failed_bootstrap_never_serves wExecFail (Or.inl ⟨execErr, rfl⟩)).2.2.1 "8080"⟩

/-- C2: when DATABASE_URL or DIRECT_URL is absent or empty, validation
throws an error carrying the list of missing names, the generation command
is never invoked (call count zero), and startup aborts with exit status 1. -/
theorem C2_validation_blocks_generation (w : World)
    (h : missingVars w.env ≠ []) :
    (generatePrismaClient w).2 = some (configError (missingVars w.env))
    ∧ Event.execCalled ∉ (generatePrismaClient w).1
    ∧ (generatePrismaClient w).1.count Event.execCalled = 0
    ∧ (startServer w).2 = ServerOutcome.exited 1 := by
  have h2 : (generatePrismaClient w).2 = some (configError (missingVars w.env)) := by
    simp [generatePrismaClient, h]
  refine ⟨h2, ?_, ?_, ?_⟩
  · simp [generatePrismaClient, h]
  · simp [generatePrismaClient, h, List.count_cons]
  · rw [start_trace_fail w _ h2]

/-- C2 witness: a concrete configuration missing both required keys. -/
theorem C2_witness :
    (generatePrismaClient wMissing).2 =
      some (configError (missingVars wMissing.env))
    ∧ Event.execCalled ∉ (generatePrismaClient wMissing).1
    ∧ (generatePrismaClient wMissing).1.count Event.execCalled = 0
    ∧ (startServer wMissing).2 = ServerOutcome.exited 1 :=
  C2_validation_blocks_generation wMissing (by decide)

/-- C3: on a successfully started server, a GET on the health-check path is
answered by the health route (priority over the wildcard) with status 200
and a body holding exactly: status "healthy", the process uptime, the
ISO timestamp taken at handling time, and an environment sub-object with
the NODE_ENV string and hasDbConnection = true. -/
theorem C3_health_response (w : World) (u : ℚ) (ts : String) (req : Request)
    (hs : (startServer w).2 = ServerOutcome.serving)
    (hm : req.method = "GET") (hp : req.path = "/api/health") :
    route w.env u ts req =
      RouteResult.health 200
        { status := "healthy", uptime := u, timestamp := ts,
          environment := { nodeEnv := w.env "NODE_ENV", hasDbConnection := true } } := by
  have hg := (serving_elim w hs).1
  have hmv := (gen_none_elim w hg).1
  have hdb := truthy_db_of_missing_nil w.env hmv
  simp [route, hm, hp, healthBody, hdb]

/-- C3 witness: the concrete all-success world answering a health request. -/
theorem C3_witness :
    route wOK.env 5 "2026-01-01T00:00:00.000Z" { method := "GET", path := "/api/health" } =
      RouteResult.health 200
        { status := "healthy", uptime := 5, timestamp := "2026-01-01T00:00:00.000Z",
          environment := { nodeEnv := wOK.env "NODE_ENV", hasDbConnection := true } } :=
  C3_health_response wOK 5 "2026-01-01T00:00:00.000Z"
    { method := "GET", path := "/api/health" } (by decide) rfl rfl

/-- C4: any request that is not a GET on the health path is delegated to the
framework handler with the original method and path preserved, and the
health route has priority over the wildcard for a GET on the health path. -/
theorem C4_delegation :
    (∀ (env : Env) (u : ℚ) (ts : String) (req : Request),
        req.method ≠ "GET" ∨ req.path ≠ "/api/health" →
        route env u ts req = RouteResult.delegated req)
    ∧ (∀ (env : Env) (u : ℚ) (ts : String),
        route env u ts { method := "GET", path := "/api/health" } =
          RouteResult.health 200 (healthBody env u ts)) := by
  constructor
  · intro env u ts req h
    rcases h with h | h <;> simp [route, h]
  · intro env u ts
    simp [route]

/-- C4 witness: a POST to the health path and a GET elsewhere are both
delegated unmodified; a GET on the health path is answered by the health
route. -/
theorem C4_witness :
    route envOK 0 "t" { method := "POST", path := "/api/health" } =
      RouteResult.delegated { method := "POST", path := "/api/health" }
    ∧ route envOK 0 "t" { method := "GET", path := "/rfis" } =
      RouteResult.delegated { method := "GET", path := "/rfis" }
    ∧ route envOK 0 "t" { method := "GET", path := "/api/health" } =
      RouteResult.health 200 (healthBody envOK 0 "t") :=
  ⟨C4_delegation.1 envOK 0 "t" _ (Or.inl (by decide)),
   C4_delegation.1 envOK 0 "t" _ (Or.inr (by decide)),
   C4_delegation.2 envOK 0 "t"⟩

/-- C5 counterexample: in a concrete run whose generation command throws,
the error is caught twice — once by the generator's catch block (which logs
the full payload: message, stack, cmd, stdout, stderr) and once by the
orchestrator's top-level catch (which logs message and stack only) — so
"caught exactly once, at the top level, where it is logged with the
captured command, stdout, stderr" fails on the code. -/
theorem C5_counterexample :
    catchCount (startServer wExecFail).1 = 2
    ∧ Event.genCatchLogged execErr ∈ (startServer wExecFail).1
    ∧ Event.topCatchLogged execErr.message execErr.stack ∈ (startServer wExecFail).1 := by
  refine ⟨by decide, by decide, by decide⟩

/-- C5 (amended): every error thrown inside the generator is caught once
there, logged with its full diagnostic payload, and re-raised (never
swallowed); the orchestrator's top-level catch then catches it a second
time, logs message and stack, and the process exits with status 1 (two
catches in total).  Errors thrown by framework preparation are caught only
once, at the top level, before the same logged exit. -/
theorem C5_error_propagation :
    (∀ (w : World) (e : JsError), (generatePrismaClient w).2 = some e →
        Event.genCatchLogged e ∈ (generatePrismaClient w).1
        ∧ catchCount (generatePrismaClient w).1 = 1
        ∧ (startServer w).1 = (generatePrismaClient w).1 ++
            [Event.topCatchLogged e.message e.stack, Event.exited 1]
        ∧ catchCount (startServer w).1 = 2
        ∧ (startServer w).2 = ServerOutcome.exited 1
        ∧ (∀ e2, Event.genCatchLogged e2 ∈ (generatePrismaClient w).1 →
            (generatePrismaClient w).2 = some e2))
    ∧ (∀ (w : World) (e : JsError), (generatePrismaClient w).2 = none →
        w.prepare = some e →
        (startServer w).1 = (generatePrismaClient w).1 ++
          [Event.prepareCalled, Event.topCatchLogged e.message e.stack, Event.exited 1]
        ∧ catchCount (startServer w).1 = 1
        ∧ (startServer w).2 = ServerOutcome.exited 1) := by
  constructor
  · intro w e h
    have htr := start_trace_fail w e h
    refine ⟨gen_some_genCatch w e h, catchCount_gen_some w e h, ?_, ?_, ?_, ?_⟩
    · rw [htr]
    · rw [htr, catchCount_append, catchCount_gen_some w e h]
      simp [catchCount, List.countP_cons]
    · rw [htr]
    · intro e2 h2
      exact gen_genCatch_some w e2 h2
  · intro w e hg hp
    have htr : startServer w = ((generatePrismaClient w).1 ++
        [Event.prepareCalled, Event.topCatchLogged e.message e.stack, Event.exited 1],
        ServerOutcome.exited 1) := by
      simp only [startServer, hg, hp]
    refine ⟨by rw [htr], ?_, by rw [htr]⟩
    rw [htr, catchCount_append, catchCount_gen_none w hg]
    simp [catchCount, List.countP_cons]

/-- C5 witness: the amended propagation facts at the concrete failing-exec
world and at a concrete world whose framework preparation fails. -/
theorem C5_witness :
    Event.genCatchLogged execErr ∈ (generatePrismaClient wExecFail).1
    ∧ catchCount (startServer wExecFail).1 = 2
    ∧ (startServer wExecFail).2 = ServerOutcome.exited 1 :=
  ⟨(C5_error_propagation.1 wExecFail execErr (by decide)).1,
   (C5_error_propagation.1 wExecFail execErr (by decide)).2.2.2.1,
   (C5_error_propagation.1 wExecFail execErr (by decide)).2.2.2.2.1⟩

/-- C6: a successful generation command with a non-empty stderr stream only
logs a warning; the bootstrap still proceeds through the connect
verification and reaches the serving state. -/
theorem C6_stderr_warning_nonfatal (w : World) (r : ExecResult)
    (hm : missingVars w.env = []) (hx : w.exec (prismaEnv w.env) = ExecOutcome.ok r)
    (hs : r.stderr ≠ "") (hc : w.connect = none) (hp : w.prepare = none) :
    Event.warn r.stderr ∈ (startServer w).1
    ∧ (generatePrismaClient w).2 = none
    ∧ Event.connectCalled ∈ (startServer w).1
    ∧ (startServer w).2 = ServerOutcome.serving := by
  have hg : (generatePrismaClient w).2 = none := by
    simp [generatePrismaClient, hm, hx, hc]
  have htr := start_trace_success w hg hp
  refine ⟨?_, hg, ?_, by rw [htr]⟩
  · rw [htr]
    simp [generatePrismaClient, hm, hx, hc, hs]
  · rw [htr]
    simp [generatePrismaClient, hm, hx, hc]

/-- C6 witness: the concrete all-success world, whose generation command
emits a non-empty stderr stream, still serves. -/
theorem C6_witness :
    Event.warn "deprecation notice" ∈ (startServer wOK).1
    ∧ (generatePrismaClient wOK).2 = none
    ∧ Event.connectCalled ∈ (startServer wOK).1
    ∧ (startServer wOK).2 = ServerOutcome.serving :=
  C6_stderr_warning_nonfatal wOK
    { stdout := "Generated Prisma Client", stderr := "deprecation notice" }
    (by decide) rfl (by decide) rfl rfl

/-- C7: in every successful bootstrap the generator constructs the client,
opens one connection and closes it again, the whole round-trip sits before
the framework-preparation event in the emitted trace; and already whenever
the generation command succeeds, the construction and connect attempt are
made unconditionally. -/
theorem C7_verification_roundtrip :
    (∀ w : World, (generatePrismaClient w).2 = none →
        Event.clientConstructed ∈ (generatePrismaClient w).1
        ∧ Event.connectCalled ∈ (generatePrismaClient w).1
        ∧ Event.disconnectCalled ∈ (generatePrismaClient w).1
        ∧ Event.prepareCalled ∉ (generatePrismaClient w).1
        ∧ (w.prepare = none →
            (startServer w).1 = (generatePrismaClient w).1 ++
              [Event.prepareCalled, Event.listenCalled (port w.env),
               Event.signalHandlersRegistered]))
    ∧ (∀ (w : World) (r : ExecResult), missingVars w.env = [] →
        w.exec (prismaEnv w.env) = ExecOutcome.ok r →
        Event.clientConstructed ∈ (generatePrismaClient w).1
        ∧ Event.connectCalled ∈ (generatePrismaClient w).1) := by
  constructor
  · intro w h
    obtain ⟨hm, ⟨r, hx⟩, hc⟩ := gen_none_elim w h
    refine ⟨?_, ?_, ?_, gen_trace_no_prepare w, fun hp => by rw [start_trace_success w h hp]⟩
    · simp [generatePrismaClient, hm, hx, hc]
    · simp [generatePrismaClient, hm, hx, hc]
    · simp [generatePrismaClient, hm, hx, hc]
  · intro w r hm hx
    cases hc : w.connect with
    | some e => exact ⟨by simp [generatePrismaClient, hm, hx, hc],
                       by simp [generatePrismaClient, hm, hx, hc]⟩
    | none => exact ⟨by simp [generatePrismaClient, hm, hx, hc],
                     by simp [generatePrismaClient, hm, hx, hc]⟩

/-- C7 witness: the round-trip events at the concrete all-success world and
the unconditional connect attempt at the concrete connect-failure world. -/
theorem C7_witness :
    Event.disconnectCalled ∈ (generatePrismaClient wOK).1
    ∧ Event.prepareCalled ∉ (generatePrismaClient wOK).1
    ∧ Event.connectCalled ∈ (generatePrismaClient wConnectFail).1 :=
  ⟨(C7_verification_roundtrip.1 wOK (by decide)).2.2.1,
   (C7_verification_roundtrip.1 wOK (by decide)).2.2.2.1,
   (C7_verification_roundtrip.2 wConnectFail
      { stdout := "Generated Prisma Client", stderr := "" } (by decide) rfl).2⟩

/-- C8: the environment handed to the generation command is the process
environment with exactly two overrides — the engine type forced to the
fixed value "binary", and NODE_ENV given the production default when unset
or empty (a set, non-empty NODE_ENV passes through) — and every other
variable is passed through unchanged. -/
theorem C8_generation_environment (env : Env) :
    prismaEnv env "PRISMA_CLIENT_ENGINE_TYPE" = some "binary"
    ∧ (env "NODE_ENV" = none → prismaEnv env "NODE_ENV" = some "production")
    ∧ (env "NODE_ENV" = some "" → prismaEnv env "NODE_ENV" = some "production")
    ∧ (∀ s, s ≠ "" → env "NODE_ENV" = some s → prismaEnv env "NODE_ENV" = some s)
    ∧ (∀ k, k ≠ "PRISMA_CLIENT_ENGINE_TYPE" → k ≠ "NODE_ENV" →
        prismaEnv env k = env k) := by
  refine ⟨by simp [prismaEnv], ?_, ?_, ?_, ?_⟩
  · intro h; simp [prismaEnv, h]
  · intro h; simp [prismaEnv, h]
  · intro s hs h; simp [prismaEnv, h, hs]
  · intro k h1 h2; simp [prismaEnv, h1, h2]

/-- C8 witness: concrete lookups into the augmented environment built from
a configuration that leaves NODE_ENV unset and carries an unrelated key. -/
theorem C8_witness :
    prismaEnv envOK "PRISMA_CLIENT_ENGINE_TYPE" = some "binary"
    ∧ prismaEnv envOK "NODE_ENV" = some "production"
    ∧ prismaEnv envOK "DATABASE_URL" = envOK "DATABASE_URL"
    ∧ prismaEnv envMissing "NODE_ENV" = some "development" :=
  ⟨(C8_generation_environment envOK).1,
   (C8_generation_environment envOK).2.1 (by decide),
   (C8_generation_environment envOK).2.2.2.2 "DATABASE_URL" (by decide) (by decide),
   (C8_generation_environment envMissing).2.2.2.1 "development" (by decide) (by decide)⟩

/-- C9: on a running instance either termination signal runs the shutdown
handler, which logs the shutdown notice and exits immediately with status
0 — the handler's trace is exactly the notice and the exit, with no
draining or waiting events — and a terminated process processes no further
inbound request. -/
theorem C9_signal_shutdown (env : Env) (u : ℚ) (ts : String) :
    serveStep env u ts ProcState.running Inbound.sigterm =
      (ProcState.terminated 0, shutdownTrace)
    ∧ serveStep env u ts ProcState.running Inbound.sigint =
      (ProcState.terminated 0, shutdownTrace)
    ∧ shutdownTrace = [Event.logMsg "Shutting down gracefully...", Event.exited 0]
    ∧ (∀ i, serveStep env u ts (ProcState.terminated 0) i = (ProcState.terminated 0, [])) :=
  ⟨rfl, rfl, rfl, fun i => by cases i <;> rfl⟩

/-- C10: reaching the serving phase requires the validator to have accepted
a non-empty DATABASE_URL, so the health payload's hasDbConnection field is
true in every reachable serving state. -/
theorem C10_serving_has_db (w : World) (u : ℚ) (ts : String)
    (h : (startServer w).2 = ServerOutcome.serving) :
    truthy (w.env "DATABASE_URL") = true
    ∧ (healthBody w.env u ts).environment.hasDbConnection = true := by
  have hg := (serving_elim w h).1
  have hm := (gen_none_elim w hg).1
  have hdb := truthy_db_of_missing_nil w.env hm
  exact ⟨hdb, by simp [healthBody, hdb]⟩

/-- C10 witness: the concrete all-success world serves with a truthful
hasDbConnection field. -/
theorem C10_witness :
    truthy (wOK.env "DATABASE_URL") = true
    ∧ (healthBody wOK.env 0 "2026-01-01T00:00:00.000Z").environment.hasDbConnection = true :=
  C10_serving_has_db wOK 0 "2026-01-01T00:00:00.000Z" (by decide)
